import Mathlib

/-!
Shallow embedding of the recommendation-orchestration backend (src/server.js),
the field-mapped, retrying variant of the pipeline that the specification
follows.  JavaScript values are modelled by an inductive JSValue, promises by
a settle time plus a settled outcome, and the Express handlers for
POST /api/recommend and POST /api/save-user as pure functions from a request
body and a collaborator environment to an HTTP response together with the
ordered list of collaborator calls that the handler performed.
-/

namespace Server

/-- Model of a JavaScript/JSON value as consumed by the pipeline.
Numbers are modelled as rationals (the pipeline performs no arithmetic on
candidate data, so floating-point behaviour is never exercised). -/
inductive JSValue where
  | undefined : JSValue
  | null : JSValue
  | bool : Bool → JSValue
  | num : Rat → JSValue
  | str : String → JSValue
  | arr : List JSValue → JSValue
  | obj : List (String × JSValue) → JSValue

/-- A JavaScript Error value as observed by the catch handler: its message
and its optional code property (axios sets code ECONNREFUSED on a refused
connection). -/
structure JsError where
  message : String
  code : Option String := none
deriving DecidableEq

/-- JavaScript truthiness, as used by the bang operator in validateCandidate
and by the empty-response check on the AI response data. -/
def truthy : JSValue → Bool
  | .undefined => false
  | .null => false
  | .bool b => b
  | .num n => n ≠ 0
  | .str s => s ≠ ""
  | .arr _ => true
  | .obj _ => true

/-- First binding of the key in a property list. -/
def lookupPairs : List (String × JSValue) → String → Option JSValue
  | [], _ => none
  | (k, v) :: rest, q => if k = q then some v else lookupPairs rest q

/-- Property lookup candidate[field]: some value when the key is an own
property of the object, none otherwise (including lookup on non-objects,
which yields undefined in JS for primitives; a null receiver, which would
throw, is not exercised by any claim). -/
def lookupField : JSValue → String → Option JSValue
  | .obj fs, q => lookupPairs fs q
  | _, _ => none

/-- Property access candidate[field], with absent keys reading as undefined. -/
def getField (v : JSValue) (q : String) : JSValue :=
  (lookupField v q).getD .undefined

/-- Whether the key is an own property of the value. -/
def hasField (v : JSValue) (q : String) : Bool :=
  (lookupField v q).isSome

/-- Property assignment target[key] = value on an object: replaces the
binding if the key is present, appends it otherwise. -/
def setField : JSValue → String → JSValue → JSValue
  | .obj fs, k, v => .obj (setPairs fs k v)
  | o, _, _ => o
where
  setPairs : List (String × JSValue) → String → JSValue → List (String × JSValue)
    | [], k, v => [(k, v)]
    | (k', v') :: rest, k, v =>
      if k' = k then (k, v) :: rest else (k', v') :: setPairs rest k v

/-- The spread copy at the top of the recommend handler: the expression
braces-dots-candidateRaw yields a fresh object with the same own properties.
Spreading a primitive yields an empty object (string bodies, which would
contribute index keys, are not exercised by any claim). -/
def spreadCopy : JSValue → JSValue
  | .obj fs => .obj fs
  | _ => .obj []

/-- Object.keys. -/
def objKeys : JSValue → List String
  | .obj fs => fs.map (·.1)
  | _ => []

/-- typeof v === 'string'. -/
def isString : JSValue → Bool
  | .str _ => true
  | _ => false

/-- Array.isArray. -/
def isArray : JSValue → Bool
  | .arr _ => true
  | _ => false

/-- The expression v.length-or-zero used for the recommendationsGenerated
count: arrays and strings have a numeric length, every other value reads
length as undefined, which the or-zero turns into 0. -/
def lenOrZero : JSValue → JSValue
  | .arr xs => .num xs.length
  | .str s => .num s.length
  | _ => .num 0

/-- JavaScript String.prototype.includes: the pattern occurs as a contiguous
substring of s. -/
def strIncludes (s pat : String) : Bool :=
  (List.range (s.toList.length + 1)).any fun i => pat.toList.isPrefixOf (s.toList.drop i)

/-! ## Field mapping configuration (FIELD_MAPPINGS) -/

/-- FIELD_MAPPINGS.candidate: internal name to external field name. -/
structure CandidateFields where
  name : String
  sector : String
  skills : String
  experience : String
  education : String
  preferences : String
  id : String

/-- FIELD_MAPPINGS.dbMethods: the storage collaborator operation names. -/
structure DbMethodNames where
  getDropdowns : String
  saveCandidate : String
  fetchCareers : String
  updateRecommendations : String

/-- FIELD_MAPPINGS.careerFilter. -/
structure CareerFilterFields where
  sector : String

/-- FIELD_MAPPINGS.aiPayload. -/
structure AiPayloadFields where
  candidate : String
  careers : String

/-- The full field mapping table, built once at startup from environment
variables with defaults. -/
structure FieldMappings where
  candidate : CandidateFields
  dbMethods : DbMethodNames
  careerFilter : CareerFilterFields
  aiPayload : AiPayloadFields

/-- The default mapping table, i.e. FIELD_MAPPINGS when no overriding
environment variable is set. -/
def defaultFieldMappings : FieldMappings where
  candidate :=
    { name := "name", sector := "sector", skills := "skills",
      experience := "experience", education := "education",
      preferences := "preferences", id := "id" }
  dbMethods :=
    { getDropdowns := "getDropdowns", saveCandidate := "saveCandidate",
      fetchCareers := "fetchCareers",
      updateRecommendations := "updateCandidateRecommendations" }
  careerFilter := { sector := "sector" }
  aiPayload := { candidate := "candidate", careers := "careers" }

/-! ## Validation (createCandidateSchema / validateCandidate) -/

/-- createCandidateSchema().required. -/
def requiredFields (fm : FieldMappings) : List String :=
  [fm.candidate.name, fm.candidate.sector]

/-- createCandidateSchema().optional. -/
def optionalFields (fm : FieldMappings) : List String :=
  [fm.candidate.skills, fm.candidate.experience, fm.candidate.education,
   fm.candidate.preferences]

/-- validateCandidate: pushes a missing-required-field error for every
required field whose value is falsy, then a type error when the name field
is truthy but not a string. -/
def validateCandidate (fm : FieldMappings) (candidate : JSValue) : List String :=
  ((requiredFields fm).filter fun field => ¬ truthy (getField candidate field)).map
      (fun field => "Missing required field: " ++ field)
    ++ (if truthy (getField candidate fm.candidate.name)
           ∧ ¬ isString (getField candidate fm.candidate.name)
        then [fm.candidate.name ++ " must be a string"] else [])

/-! ## Timeout wrapper (withTimeout) -/

/-- A pending promise, modelled by the instant (in ms since the wrapping
call) at which it settles and the outcome it settles with. -/
structure AsyncOp where
  settleTime : Nat
  result : Except JsError JSValue

/-- The error constructed by the withTimeout race when the timer wins. -/
def timeoutError (operation : String) (timeoutMs : Nat) : JsError :=
  { message := operation ++ " timeout after " ++ toString timeoutMs ++ "ms", code := none }

/-- withTimeout: Promise.race of the operation against a rejection timer.
If the operation settles no later than the timer fires, its own outcome
(fulfilment or rejection) is observed; otherwise the caller observes the
timeout rejection and the operation's eventual outcome is discarded (the
operation itself is not cancelled).  Being a function, exactly one outcome
is produced. -/
def withTimeout (op : AsyncOp) (timeoutMs : Nat) (operation : String) : Except JsError JSValue :=
  if op.settleTime ≤ timeoutMs then op.result
  else .error (timeoutError operation timeoutMs)

/-! ## Retry wrapper (retryOperation) -/

/-- The retryOperation for-loop, structurally recursive on the number of
remaining attempts (remaining = maxRetries - attempt + 1): with none
remaining the loop guard fails and the function resolves undefined; on the
last remaining attempt a rejection is rethrown unchanged (attempt equals
maxRetries); otherwise a rejection sleeps delay * attempt and retries.
Besides the outcome it returns the number of attempts actually performed and
the list of delays slept, in order. -/
def retryRunGo (op : Nat → Except JsError JSValue) (delay : Nat) :
    Nat → Nat → Except JsError JSValue × Nat × List Nat
  | _, 0 => (.ok .undefined, 0, [])
  | attempt, 1 =>
    match op attempt with
    | .ok v => (.ok v, 1, [])
    | .error e => (.error e, 1, [])
  | attempt, n + 2 =>
    match op attempt with
    | .ok v => (.ok v, 1, [])
    | .error _ =>
      let rest := retryRunGo op delay (attempt + 1) (n + 1)
      (rest.1, rest.2.1 + 1, delay * attempt :: rest.2.2)

/-- retryOperation instrumented: outcome, attempts performed, delays slept. -/
def retryRun (op : Nat → Except JsError JSValue) (maxRetries delay : Nat) :
    Except JsError JSValue × Nat × List Nat :=
  retryRunGo op delay 1 maxRetries

/-- retryOperation(operation, maxRetries, delay): the op argument gives the
outcome of the fresh invocation of the operation on each 1-based attempt. -/
def retryOperation (op : Nat → Except JsError JSValue) (maxRetries delay : Nat) :
    Except JsError JSValue :=
  (retryRun op maxRetries delay).1

/-! ## Collaborator environment -/

/-- The storage collaborator as consumed by the handlers.  The code looks the
four required operations up by their configured names and first checks that
each resolves to a function; since only those four names are ever consulted,
the implemented-method set is abstracted as one presence flag per required
operation.  saveCandidate is invoked afresh on each retry attempt, so its
behaviour is indexed by the 1-based attempt number. -/
structure DbService where
  hasGetDropdowns : Bool := true
  hasSaveCandidate : Bool := true
  hasFetchCareers : Bool := true
  hasUpdateRecommendations : Bool := true
  saveCandidate : JSValue → Nat → AsyncOp
  fetchCareers : JSValue → AsyncOp
  updateRecommendations : JSValue → JSValue → AsyncOp

/-- Per-request environment: the collaborators' behaviour together with the
configuration constants.  aiPost gives the outcome of the axios POST to the
AI service for a given payload on a given 1-based attempt, returning the
response data on fulfilment; its rejections carry the axios error (whose code
is ECONNREFUSED when the service is unreachable, and whose message mentions
timeout when the client-side AI_SERVICE_TIMEOUT fires).  elapsed abstracts
the wall-clock processingTime reported in responses. -/
structure RecommendEnv where
  dbLoads : Bool := true
  db : DbService
  aiPost : JSValue → Nat → Except JsError JSValue
  dbTimeout : Nat := 5000
  elapsed : Nat := 0
  isDev : Bool := false

/-! ## Error classification and response bodies -/

/-- The catch handler's status classification: statusCode starts at 500 and
is overwritten by each matching test in order (message contains Validation
failed, then message contains timeout, then code is ECONNREFUSED). -/
def classifyStatus (err : JsError) : Nat :=
  let s := 500
  let s := if strIncludes err.message "Validation failed" then 400 else s
  let s := if strIncludes err.message "timeout" then 408 else s
  let s := if err.code = some "ECONNREFUSED" then 503 else s
  s

/-- An HTTP response: status code and JSON body. -/
structure HttpResponse where
  status : Nat
  body : JSValue

/-- The 400 body produced on validation failure by both endpoints. -/
def validationFailureBody (fm : FieldMappings) (errs : List String) : JSValue :=
  .obj [("success", .bool false),
        ("error", .str "Validation failed"),
        ("details", .arr (errs.map .str)),
        ("expectedFields",
          .obj [("required", .arr ((requiredFields fm).map .str)),
                ("optional", .arr ((optionalFields fm).map .str))])]

/-- The recommend endpoint's catch handler: classified status, and a body
with the stable generic message; the details key is only present in
development configuration (res.json drops undefined values). -/
def recommendCatch (env : RecommendEnv) (err : JsError) (candidateId : JSValue) :
    HttpResponse where
  status := classifyStatus err
  body := .obj ([("success", .bool false),
                 ("error", .str "AI recommendation failed"),
                 ("candidateId", candidateId),
                 ("processingTime", .num env.elapsed)]
                ++ (if env.isDev then [("details", .str err.message)] else []))

/-- The error thrown when the database service module cannot be loaded. -/
def dbNotFoundError : JsError :=
  { message := "Database service not found. Make sure dbService.js exists and exports the required methods." }

/-- Object.values(dbMethods).filter(m. typeof db[m] is not a function). -/
def missingMethods (fm : FieldMappings) (db : DbService) : List String :=
  (if db.hasGetDropdowns then [] else [fm.dbMethods.getDropdowns])
    ++ (if db.hasSaveCandidate then [] else [fm.dbMethods.saveCandidate])
    ++ (if db.hasFetchCareers then [] else [fm.dbMethods.fetchCareers])
    ++ (if db.hasUpdateRecommendations then [] else [fm.dbMethods.updateRecommendations])

/-- The error thrown when some required database methods are missing. -/
def missingMethodsError (fm : FieldMappings) (db : DbService) : JsError :=
  { message := "Database service missing methods: " ++ String.intercalate ", " (missingMethods fm db) }

/-- The contract-violation error thrown when fetchCareers does not return an
array. -/
def invalidCareersError : JsError :=
  { message := "Invalid careers response - expected array" }

/-- The error thrown inside the retried AI operation when the response body
is falsy. -/
def emptyAiResponseError : JsError :=
  { message := "Empty response from AI service" }

/-! ## The recommend pipeline stages -/

/-- One attempt of Step 1: the saveCandidate call under the Timeout
wrapper, as handed to retryOperation. -/
def saveAttempt (_fm : FieldMappings) (env : RecommendEnv) (candidate : JSValue)
    (attempt : Nat) : Except JsError JSValue :=
  withTimeout (env.db.saveCandidate candidate attempt) env.dbTimeout "Save candidate"

/-- Step 1 with its retry budget of 2 attempts and default 1000ms base
delay. -/
def saveRun (fm : FieldMappings) (env : RecommendEnv) (candidate : JSValue) :
    Except JsError JSValue × Nat × List Nat :=
  retryRun (saveAttempt fm env candidate) 2 1000

/-- The filter object handed to fetchCareers: the configured career filter
key bound to the candidate's sector value. -/
def careerFilterOf (fm : FieldMappings) (candidate : JSValue) : JSValue :=
  setField (.obj []) fm.careerFilter.sector (getField candidate fm.candidate.sector)

/-- Step 2: the fetchCareers call under the Timeout wrapper (no retry). -/
def fetchResult (fm : FieldMappings) (env : RecommendEnv) (candidate : JSValue) :
    Except JsError JSValue :=
  withTimeout (env.db.fetchCareers (careerFilterOf fm candidate)) env.dbTimeout "Fetch careers"

/-- The AI payload: the configured candidate key bound to the candidate and
the configured careers key bound to the fetched careers. -/
def aiPayloadOf (fm : FieldMappings) (candidate careers : JSValue) : JSValue :=
  setField (setField (.obj []) fm.aiPayload.candidate candidate) fm.aiPayload.careers careers

/-- One attempt of Step 3 as handed to retryOperation: the axios POST
(bounded by the HTTP client's own timeout option, not by the withTimeout
wrapper), followed by the falsy-data check that rejects with the
empty-response error. -/
def aiAttempt (env : RecommendEnv) (payload : JSValue) (attempt : Nat) :
    Except JsError JSValue :=
  match env.aiPost payload attempt with
  | .error e => .error e
  | .ok data => if truthy data then .ok data else .error emptyAiResponseError

/-- Step 3 with its retry budget of 2 attempts and 2000ms base delay. -/
def aiRun (env : RecommendEnv) (payload : JSValue) :
    Except JsError JSValue × Nat × List Nat :=
  retryRun (aiAttempt env payload) 2 2000

/-- Step 4: the updateRecommendations call under the Timeout wrapper (not
retried). -/
def updateResult (env : RecommendEnv) (candidateId recommendations : JSValue) :
    Except JsError JSValue :=
  withTimeout (env.db.updateRecommendations candidateId recommendations) env.dbTimeout
    "Update recommendations"

/-- The Step 5 success body. -/
def successBody (fm : FieldMappings) (env : RecommendEnv) (candidate : JSValue)
    (careerList : List JSValue) (candidateId recommendations : JSValue) : JSValue :=
  .obj [("success", .bool true),
        ("candidateId", candidateId),
        ("recommendations", recommendations),
        ("processingTime", .num env.elapsed),
        ("metadata",
          .obj [("careersAnalyzed", .num careerList.length),
                ("recommendationsGenerated", lenOrZero recommendations),
                ("fieldsUsed",
                  .obj [("candidateFields", .arr ((objKeys candidate).map .str)),
                        ("filterField", .str fm.careerFilter.sector),
                        ("aiPayloadStructure",
                          .arr ((objKeys (aiPayloadOf fm candidate (.arr careerList))).map .str))])])]

/-! ## The handlers -/

/-- The ordered record of collaborator calls a handler performs, each with
the argument values it was given and, for retried calls, the 1-based
attempt number. -/
inductive CallEvent where
  | saveCall (candidate : JSValue) (attempt : Nat)
  | fetchCall (filter : JSValue)
  | scoreCall (payload : JSValue) (attempt : Nat)
  | updateCall (candidateId recommendations : JSValue)

/-- The body of the recommend handler's try block after validation has
passed, together with its catch handler.  The candidateId variable starts
null and is overwritten by the save result; every thrown error lands in the
catch with the candidateId current at that point. -/
def recommendPipeline (fm : FieldMappings) (env : RecommendEnv) (candidate : JSValue) :
    HttpResponse × List CallEvent :=
  if env.dbLoads = false then (recommendCatch env dbNotFoundError .null, [])
  else if (missingMethods fm env.db).isEmpty = false then
    (recommendCatch env (missingMethodsError fm env.db) .null, [])
  else
    let sr := saveRun fm env candidate
    let saveTrace := (List.range sr.2.1).map fun i => CallEvent.saveCall candidate (i + 1)
    match sr.1 with
    | .error e => (recommendCatch env e .null, saveTrace)
    | .ok candidateId =>
      let fetchTrace := saveTrace ++ [CallEvent.fetchCall (careerFilterOf fm candidate)]
      match fetchResult fm env candidate with
      | .error e => (recommendCatch env e candidateId, fetchTrace)
      | .ok (.arr careerList) =>
        let payload := aiPayloadOf fm candidate (.arr careerList)
        let ar := aiRun env payload
        let scoreTrace :=
          fetchTrace ++ (List.range ar.2.1).map fun i => CallEvent.scoreCall payload (i + 1)
        match ar.1 with
        | .error e => (recommendCatch env e candidateId, scoreTrace)
        | .ok recommendations =>
          let updateTrace := scoreTrace ++ [CallEvent.updateCall candidateId recommendations]
          match updateResult env candidateId recommendations with
          | .error e => (recommendCatch env e candidateId, updateTrace)
          | .ok _ =>
            (⟨200, successBody fm env candidate careerList candidateId recommendations⟩,
             updateTrace)
      | .ok _ => (recommendCatch env invalidCareersError candidateId, fetchTrace)

/-- POST /api/recommend: spread-copies the request body, validates it with
the resolved field names, and on success runs the pipeline; a validation
failure returns 400 immediately, before the database service is even
loaded. -/
def recommendHandler (fm : FieldMappings) (env : RecommendEnv) (reqBody : JSValue) :
    HttpResponse × List CallEvent :=
  let candidate := spreadCopy reqBody
  let validationErrors := validateCandidate fm candidate
  if validationErrors.isEmpty then recommendPipeline fm env candidate
  else (⟨400, validationFailureBody fm validationErrors⟩, [])

/-- The save-user endpoint's catch body: always status 500 with the stable
message. -/
def saveUserFailureBody (env : RecommendEnv) (err : JsError) : JSValue :=
  .obj ([("success", .bool false), ("error", .str "Failed to save user")]
        ++ (if env.isDev then [("details", .str err.message)] else []))

/-- POST /api/save-user: validates the raw request body (no copy), checks
the configured save method resolves to a function, and performs one
saveCandidate call under the Timeout wrapper; every thrown error yields
status 500. -/
def saveUserHandler (fm : FieldMappings) (env : RecommendEnv) (reqBody : JSValue) :
    HttpResponse × List CallEvent :=
  let validationErrors := validateCandidate fm reqBody
  if validationErrors.isEmpty then
    if env.dbLoads = false then (⟨500, saveUserFailureBody env dbNotFoundError⟩, [])
    else if env.db.hasSaveCandidate = false then
      (⟨500, saveUserFailureBody env
        { message := "Database service missing method: " ++ fm.dbMethods.saveCandidate }⟩, [])
    else
      match withTimeout (env.db.saveCandidate reqBody 1) env.dbTimeout "Save user" with
      | .error e => (⟨500, saveUserFailureBody env e⟩, [CallEvent.saveCall reqBody 1])
      | .ok id => (⟨200, .obj [("success", .bool true), ("id", id)]⟩, [CallEvent.saveCall reqBody 1])
  else (⟨400, validationFailureBody fm validationErrors⟩, [])

/-- Count of save calls in a trace. -/
def countSave (tr : List CallEvent) : Nat :=
  (tr.filter fun ev => match ev with | .saveCall _ _ => true | _ => false).length

/-- Count of fetchCareers calls in a trace. -/
def countFetch (tr : List CallEvent) : Nat :=
  (tr.filter fun ev => match ev with | .fetchCall _ => true | _ => false).length

/-- Count of AI scoring calls in a trace. -/
def countScore (tr : List CallEvent) : Nat :=
  (tr.filter fun ev => match ev with | .scoreCall _ _ => true | _ => false).length

/-- Count of updateRecommendations calls in a trace. -/
def countUpdate (tr : List CallEvent) : Nat :=
  (tr.filter fun ev => match ev with | .updateCall _ _ => true | _ => false).length

/-! ## General lemmas about the wrappers -/

/-- If the loop, starting at some attempt, sees failures on its first i
invocations and a fulfilment on the next one, and enough attempts remain,
it resolves with the fulfilment after i + 1 invocations, having slept the
linearly growing delays in between. -/
theorem retryRunGo_ok (op : Nat → Except JsError JSValue) (d : Nat) :
    ∀ (i rem a : Nat) (v : JSValue), i < rem →
      (∀ j, j < i → ∃ e, op (a + j) = .error e) → op (a + i) = .ok v →
      retryRunGo op d a rem = (.ok v, i + 1, (List.range i).map fun j => d * (a + j)) := by
  intro i
  induction i with
  | zero =>
    intro rem a v hlt _ hok
    rw [Nat.add_zero] at hok
    match rem, hlt with
    | 1, _ => simp [retryRunGo, hok]
    | n + 2, _ => simp [retryRunGo, hok]
  | succ i ih =>
    intro rem a v hlt hfail hok
    obtain ⟨e0, he0⟩ := hfail 0 (Nat.succ_pos i)
    rw [Nat.add_zero] at he0
    match rem, hlt with
    | m + 2, _ =>
      have hrec := ih (m + 1) (a + 1) v (by omega)
        (fun j hj => by
          obtain ⟨e, he⟩ := hfail (j + 1) (by omega)
          exact ⟨e, by rw [← he]; congr 1; omega⟩)
        (by rw [← hok]; congr 1; omega)
      simp only [retryRunGo, he0, hrec, Prod.mk.injEq]
      refine ⟨trivial, trivial, ?_⟩
      rw [List.range_succ_eq_map, List.map_cons, List.map_map]
      refine congrArg₂ _ (by rw [Nat.add_zero]) (List.map_congr_left fun j _ => ?_)
      show d * (a + 1 + j) = d * (a + (j + 1))
      congr 1
      omega

/-- If every remaining attempt fails, the loop rethrows the error of the
final attempt unchanged, after performing every remaining attempt. -/
theorem retryRunGo_all_fail (op : Nat → Except JsError JSValue) (d : Nat) :
    ∀ (rem a : Nat) (e : JsError), 1 ≤ rem →
      (∀ j, j + 1 < rem → ∃ e', op (a + j) = .error e') → op (a + (rem - 1)) = .error e →
      retryRunGo op d a rem =
        (.error e, rem, (List.range (rem - 1)).map fun j => d * (a + j)) := by
  intro rem
  induction rem with
  | zero => omega
  | succ m ih =>
    intro a e _ hfail hlast
    match m with
    | 0 =>
      rw [Nat.add_zero] at hlast
      simp [retryRunGo, hlast]
    | m' + 1 =>
      obtain ⟨e0, he0⟩ := hfail 0 (by omega)
      rw [Nat.add_zero] at he0
      have hrec := ih (a + 1) e (by omega)
        (fun j hj => by
          obtain ⟨e', he'⟩ := hfail (j + 1) (by omega)
          exact ⟨e', by rw [← he']; congr 1; omega⟩)
        (by rw [← hlast]; congr 1; omega)
      simp only [retryRunGo, he0, hrec, Prod.mk.injEq]
      refine ⟨trivial, trivial, ?_⟩
      rw [show m' + 1 + 1 - 1 = m' + 1 from rfl, List.range_succ_eq_map, List.map_cons,
        List.map_map]
      refine congrArg₂ _ (by rw [Nat.add_zero]) (List.map_congr_left fun j _ => ?_)
      show d * (a + 1 + j) = d * (a + (j + 1))
      congr 1
      omega

/-- Every delay the loop sleeps is the base delay times the (1-based) index
of the attempt that just failed. -/
theorem retryRunGo_delays (op : Nat → Except JsError JSValue) (d : Nat) :
    ∀ (rem a i : Nat) (x : Nat), ((retryRunGo op d a rem).2.2)[i]? = some x →
      x = d * (a + i) := by
  intro rem
  induction rem with
  | zero => intro a i x h; simp [retryRunGo] at h
  | succ m ih =>
    intro a i x h
    match m with
    | 0 =>
      cases hop : op a <;> simp [retryRunGo, hop] at h
    | m' + 1 =>
      cases hop : op a with
      | ok v => simp [retryRunGo, hop] at h
      | error e =>
        simp only [retryRunGo, hop] at h
        match i with
        | 0 =>
          simp only [List.getElem?_cons_zero, Option.some.injEq] at h
          rw [Nat.add_zero]
          exact h.symm
        | i' + 1 =>
          rw [List.getElem?_cons_succ] at h
          rw [ih (a + 1) i' x h]
          congr 1
          omega

/-! ## Lemmas about timeout messages and classification -/

/-- Auxiliary: joining the character lists of two strings. -/
theorem toList_append (s t : String) : (s ++ t).toList = s.toList ++ t.toList :=
  String.data_append s t

/-- Every message built by the timeout wrapper contains the word timeout as
a substring. -/
theorem strIncludes_timeout_message (label : String) (t : Nat) :
    strIncludes (timeoutError label t).message "timeout" = true := by
  unfold timeoutError strIncludes
  simp only
  rw [List.any_eq_true]
  refine ⟨label.toList.length + 1, ?_, ?_⟩
  · rw [List.mem_range]
    have h : (label ++ " timeout after " ++ toString t ++ "ms").toList
        = label.toList ++ (" timeout after ".toList ++ ((toString t).toList ++ "ms".toList)) := by
      rw [toList_append, toList_append, toList_append, List.append_assoc, List.append_assoc]
    rw [h]
    rw [List.length_append, List.length_append, List.length_append]
    have h15 : " timeout after ".toList.length = 15 := rfl
    omega
  · have h : (label ++ " timeout after " ++ toString t ++ "ms").toList
        = label.toList ++ (" timeout after ".toList ++ ((toString t).toList ++ "ms".toList)) := by
      rw [toList_append, toList_append, toList_append, List.append_assoc, List.append_assoc]
    rw [h, ← List.drop_drop, List.drop_left]
    have h2 : " timeout after ".toList
        = ' ' :: ('t' :: 'i' :: 'm' :: 'e' :: 'o' :: 'u' :: 't' ::
            (' ' :: 'a' :: 'f' :: 't' :: 'e' :: 'r' :: ' ' :: [])) := rfl
    rw [h2]
    simp [List.isPrefixOf, String.toList]

/-- The catch handler classifies every timeout-wrapper error as 408. -/
theorem classifyStatus_timeoutError (label : String) (t : Nat) :
    classifyStatus (timeoutError label t) = 408 := by
  unfold classifyStatus
  rw [strIncludes_timeout_message label t]
  simp [timeoutError]

/-- The catch handler classifies every error whose message mentions timeout
and whose code is not ECONNREFUSED as 408. -/
theorem classifyStatus_timeout_message (err : JsError)
    (h : strIncludes err.message "timeout" = true) (hc : err.code ≠ some "ECONNREFUSED") :
    classifyStatus err = 408 := by
  unfold classifyStatus
  rw [h]
  simp [hc]

/-- The catch handler classifies every ECONNREFUSED error as 503. -/
theorem classifyStatus_connRefused (err : JsError) (h : err.code = some "ECONNREFUSED") :
    classifyStatus err = 503 := by
  unfold classifyStatus
  simp [h]

/-- The catch handler classifies every other error as 500. -/
theorem classifyStatus_other (err : JsError)
    (h1 : strIncludes err.message "Validation failed" = false)
    (h2 : strIncludes err.message "timeout" = false)
    (h3 : err.code ≠ some "ECONNREFUSED") :
    classifyStatus err = 500 := by
  unfold classifyStatus
  rw [h1, h2]
  simp [h3]

/-- The loop never performs more invocations than attempts remain. -/
theorem retryRunGo_attempts_le (op : Nat → Except JsError JSValue) (d : Nat) :
    ∀ (rem a : Nat), (retryRunGo op d a rem).2.1 ≤ rem := by
  intro rem
  induction rem with
  | zero => intro a; simp [retryRunGo]
  | succ m ih =>
    intro a
    match m with
    | 0 => cases hop : op a <;> simp [retryRunGo, hop]
    | m' + 1 =>
      cases hop : op a with
      | ok v => simp [retryRunGo, hop]
      | error e =>
        simp only [retryRunGo, hop]
        have := ih (a + 1)
        omega

/-! ## Lemmas about validation -/

/-- A key that is not an own property reads as undefined. -/
theorem getField_eq_undefined_of_not_has (v : JSValue) (q : String)
    (h : hasField v q = false) : getField v q = .undefined := by
  unfold hasField at h
  unfold getField
  cases hl : lookupField v q with
  | none => rfl
  | some w => rw [hl] at h; simp at h

/-- A falsy name field produces the missing-required-field error for the
resolved name field. -/
theorem missing_name_mem_validate (fm : FieldMappings) (c : JSValue)
    (h : truthy (getField c fm.candidate.name) = false) :
    ("Missing required field: " ++ fm.candidate.name) ∈ validateCandidate fm c := by
  unfold validateCandidate
  refine List.mem_append_left _ (List.mem_map.mpr ⟨fm.candidate.name, ?_, rfl⟩)
  refine List.mem_filter.mpr ⟨List.mem_cons_self _ _, ?_⟩
  simp [h]

/-- A falsy sector field produces the missing-required-field error for the
resolved sector field. -/
theorem missing_sector_mem_validate (fm : FieldMappings) (c : JSValue)
    (h : truthy (getField c fm.candidate.sector) = false) :
    ("Missing required field: " ++ fm.candidate.sector) ∈ validateCandidate fm c := by
  unfold validateCandidate
  refine List.mem_append_left _ (List.mem_map.mpr ⟨fm.candidate.sector, ?_, rfl⟩)
  refine List.mem_filter.mpr ⟨?_, by simp [h]⟩
  unfold requiredFields
  exact List.mem_cons_of_mem _ (List.mem_cons_self _ _)

/-- The validation error list of a candidate with a falsy required field is
not empty. -/
theorem validate_not_empty (fm : FieldMappings) (c : JSValue)
    (h : truthy (getField c fm.candidate.name) = false
       ∨ truthy (getField c fm.candidate.sector) = false) :
    (validateCandidate fm c).isEmpty = false := by
  have hmem : ∃ s, s ∈ validateCandidate fm c := by
    rcases h with h | h
    · exact ⟨_, missing_name_mem_validate fm c h⟩
    · exact ⟨_, missing_sector_mem_validate fm c h⟩
  obtain ⟨s, hs⟩ := hmem
  cases hv : validateCandidate fm c with
  | nil => rw [hv] at hs; simp at hs
  | cons a l => rfl

/-! ## Claim theorems -/

/-- Claim C9: for every wrapped operation, if the timer fires before the
operation settles, withTimeout fails with the timeout error carrying the
operation label and the configured duration — independent of the
operation's own eventual outcome, which is discarded — and that error is of
Timeout kind: its message contains the word timeout and the catch handler
classifies it as 408.  (The wrapper is a function of the operation, so the
caller observes exactly one outcome.) -/
theorem c9_withTimeout_deadline (op : AsyncOp) (timeoutMs : Nat) (label : String)
    (h : timeoutMs < op.settleTime) :
    withTimeout op timeoutMs label = .error (timeoutError label timeoutMs)
    ∧ (timeoutError label timeoutMs).message
        = label ++ " timeout after " ++ toString timeoutMs ++ "ms"
    ∧ strIncludes (timeoutError label timeoutMs).message "timeout" = true
    ∧ classifyStatus (timeoutError label timeoutMs) = 408 := by
  refine ⟨?_, rfl, strIncludes_timeout_message label timeoutMs,
    classifyStatus_timeoutError label timeoutMs⟩
  unfold withTimeout
  rw [if_neg (by omega)]

/-- Witness for C9 at a concrete operation that would later resolve
successfully: the wrapper still reports the timeout. -/
theorem c9_withTimeout_deadline_witness :
    withTimeout ⟨7000, .ok (.str "late")⟩ 5000 "Fetch careers"
      = .error (timeoutError "Fetch careers" 5000)
    ∧ classifyStatus (timeoutError "Fetch careers" 5000) = 408 :=
  ⟨(c9_withTimeout_deadline ⟨7000, .ok (.str "late")⟩ 5000 "Fetch careers" (by decide)).1,
   (c9_withTimeout_deadline ⟨7000, .ok (.str "late")⟩ 5000 "Fetch careers" (by decide)).2.2.2⟩

/-- Claim C5: retryOperation returns the success value of the first
fulfilled attempt within the budget even after earlier failures, propagates
the final attempt's error unchanged when every attempt fails, and sleeps
baseDelayMs * (k - 1) before attempt k (the delay at list position i, slept
before attempt i + 2, is delay * (i + 1)). -/
theorem c5_retryOperation_semantics (op : Nat → Except JsError JSValue)
    (maxRetries delay k : Nat) (v : JSValue) (e : Nat → JsError) :
    (1 ≤ k → k ≤ maxRetries → (∀ j, 1 ≤ j → j < k → op j = .error (e j)) → op k = .ok v →
      retryOperation op maxRetries delay = .ok v)
    ∧ (1 ≤ maxRetries → (∀ j, 1 ≤ j → j ≤ maxRetries → op j = .error (e j)) →
      retryOperation op maxRetries delay = .error (e maxRetries))
    ∧ (∀ i x, ((retryRun op maxRetries delay).2.2)[i]? = some x → x = delay * (i + 1)) := by
  refine ⟨?_, ?_, ?_⟩
  · intro h1 h2 hfail hok
    unfold retryOperation retryRun
    rw [retryRunGo_ok op delay (k - 1) maxRetries 1 v (by omega)
      (fun j hj => ⟨e (1 + j), by rw [hfail (1 + j) (by omega) (by omega)]⟩)
      (by rw [show 1 + (k - 1) = k by omega, hok])]
  · intro h1 hfail
    unfold retryOperation retryRun
    rw [retryRunGo_all_fail op delay maxRetries 1 (e maxRetries) h1
      (fun j hj => ⟨e (1 + j), by rw [hfail (1 + j) (by omega) (by omega)]⟩)
      (by rw [show 1 + (maxRetries - 1) = maxRetries by omega]
          exact hfail maxRetries h1 (Nat.le_refl _))]
  · intro i x h
    unfold retryRun at h
    rw [retryRunGo_delays op delay maxRetries 1 i x h]
    congr 1
    omega

/-- A concrete operation for the C5 witness: attempts 1 and 2 fail, attempt
3 succeeds. -/
def opW : Nat → Except JsError JSValue := fun a =>
  if a < 3 then .error { message := "fail" ++ toString a } else .ok (.str "done")

/-- Witness for C5: on a 3-attempt budget opW succeeds; on a 2-attempt
budget the second attempt's error is propagated unchanged; the first delay
slept is delay * 1. -/
theorem c5_retryOperation_semantics_witness :
    retryOperation opW 3 1000 = .ok (.str "done")
    ∧ retryOperation opW 2 1000 = .error { message := "fail2" }
    ∧ (1000 : Nat) = 1000 * (0 + 1) :=
  ⟨(c5_retryOperation_semantics opW 3 1000 3 (.str "done")
      (fun j => { message := "fail" ++ toString j })).1
      (by omega) (by omega)
      (fun j h1 h2 => by interval_cases j <;> rfl) (by rfl),
   (c5_retryOperation_semantics opW 2 1000 0 .undefined
      (fun j => { message := "fail" ++ toString j })).2.1
      (by omega) (fun j h1 h2 => by interval_cases j <;> rfl),
   (c5_retryOperation_semantics opW 3 1000 0 .undefined
      (fun j => { message := "fail" ++ toString j })).2.2 0 1000 (by rfl)⟩

/-- A value that can be looked up is only found on an object, on which the
spread copy is the identity. -/
theorem spreadCopy_of_lookup (body : JSValue) (q : String) (v : JSValue)
    (h : lookupField body q = some v) : spreadCopy body = body := by
  cases body <;> first | rfl | (unfold lookupField at h; exact absurd h (by simp))

/-- Claim C2: a candidate request missing the resolved name or sector field
fails validation and returns 400 with the Validation failed error, and the
handler performs zero collaborator calls (empty call trace), hence no side
effects. -/
theorem c2_validation_short_circuits (fm : FieldMappings) (env : RecommendEnv)
    (body : JSValue)
    (h : hasField (spreadCopy body) fm.candidate.name = false
       ∨ hasField (spreadCopy body) fm.candidate.sector = false) :
    (recommendHandler fm env body).2 = []
    ∧ (recommendHandler fm env body).1.status = 400
    ∧ getField (recommendHandler fm env body).1.body "success" = .bool false
    ∧ getField (recommendHandler fm env body).1.body "error" = .str "Validation failed" := by
  have hval : (validateCandidate fm (spreadCopy body)).isEmpty = false := by
    refine validate_not_empty fm _ ?_
    rcases h with h | h
    · exact Or.inl (by rw [getField_eq_undefined_of_not_has _ _ h]; rfl)
    · exact Or.inr (by rw [getField_eq_undefined_of_not_has _ _ h]; rfl)
  simp only [recommendHandler, hval, Bool.false_eq_true, if_false]
  exact ⟨trivial, trivial, rfl, rfl⟩

/-- The end-to-end request body of the spec's example: Ada in the tech
sector. -/
def adaBody : JSValue := .obj [("name", .str "Ada"), ("sector", .str "tech")]

/-- The collaborator behaviour of the spec's end-to-end example: save
returns id c1, fetchCareers returns one Engineer career, scoring returns
one scored Engineer recommendation, updateRecommendations succeeds. -/
def envC3 : RecommendEnv where
  db :=
    { saveCandidate := fun _ _ => ⟨0, .ok (.str "c1")⟩
      fetchCareers := fun _ => ⟨0, .ok (.arr [.obj [("title", .str "Engineer")]])⟩
      updateRecommendations := fun _ _ => ⟨0, .ok .undefined⟩ }
  aiPost := fun _ _ => .ok (.arr [.obj [("title", .str "Engineer"), ("score", .num 0.9)]])

/-- A trivial collaborator environment for closed witnesses that only
exercise the validation path. -/
def envIdle : RecommendEnv where
  db :=
    { saveCandidate := fun _ _ => ⟨0, .ok (.str "c1")⟩
      fetchCareers := fun _ => ⟨0, .ok (.arr [])⟩
      updateRecommendations := fun _ _ => ⟨0, .ok .undefined⟩ }
  aiPost := fun _ _ => .ok (.arr [])

/-- Witness for C2: a request carrying only a sector is rejected with 400
and an empty call trace. -/
theorem c2_validation_short_circuits_witness :
    (recommendHandler defaultFieldMappings envIdle (.obj [("sector", .str "tech")])).2 = []
    ∧ (recommendHandler defaultFieldMappings envIdle (.obj [("sector", .str "tech")])).1.status
        = 400 :=
  ⟨(c2_validation_short_circuits defaultFieldMappings envIdle (.obj [("sector", .str "tech")])
      (Or.inl (by rfl))).1,
   (c2_validation_short_circuits defaultFieldMappings envIdle (.obj [("sector", .str "tech")])
      (Or.inl (by rfl))).2.1⟩

/-- Claim C10: required-field validation treats falsy values as missing —
a name or sector bound to the empty string, 0, false, or null yields the
missing-required-field validation error, and both POST /api/recommend and
POST /api/save-user reject the request with 400 without any collaborator
call, exactly as for an absent field. -/
theorem c10_falsy_required_field (fm : FieldMappings) (env : RecommendEnv)
    (body v : JSValue)
    (hv : v = .str "" ∨ v = .num 0 ∨ v = .bool false ∨ v = .null)
    (hfield : lookupField body fm.candidate.name = some v
            ∨ lookupField body fm.candidate.sector = some v) :
    (∃ f, (f = fm.candidate.name ∨ f = fm.candidate.sector)
        ∧ ("Missing required field: " ++ f) ∈ validateCandidate fm body)
    ∧ (recommendHandler fm env body).1.status = 400
    ∧ (recommendHandler fm env body).2 = []
    ∧ (saveUserHandler fm env body).1.status = 400
    ∧ (saveUserHandler fm env body).2 = [] := by
  have hvt : truthy v = false := by
    rcases hv with h | h | h | h <;> rw [h] <;> rfl
  have hcopy : spreadCopy body = body := by
    rcases hfield with h | h
    · exact spreadCopy_of_lookup body _ v h
    · exact spreadCopy_of_lookup body _ v h
  have hfalsy : truthy (getField body fm.candidate.name) = false
      ∨ truthy (getField body fm.candidate.sector) = false := by
    rcases hfield with h | h
    · exact Or.inl (by unfold getField; rw [h]; exact hvt)
    · exact Or.inr (by unfold getField; rw [h]; exact hvt)
  have hval : (validateCandidate fm body).isEmpty = false := validate_not_empty fm body hfalsy
  have hval2 : (validateCandidate fm (spreadCopy body)).isEmpty = false := by rw [hcopy]; exact hval
  refine ⟨?_, ?_, ?_, ?_, ?_⟩
  · rcases hfalsy with h | h
    · exact ⟨fm.candidate.name, Or.inl rfl, missing_name_mem_validate fm body h⟩
    · exact ⟨fm.candidate.sector, Or.inr rfl, missing_sector_mem_validate fm body h⟩
  · simp only [recommendHandler, hval2, Bool.false_eq_true, if_false]
  · simp only [recommendHandler, hval2, Bool.false_eq_true, if_false]
  · simp only [saveUserHandler, hval, Bool.false_eq_true, if_false]
  · simp only [saveUserHandler, hval, Bool.false_eq_true, if_false]

/-- Witness for C10: an empty-string name is rejected with 400 by both
endpoints. -/
theorem c10_falsy_required_field_witness :
    (recommendHandler defaultFieldMappings envIdle
        (.obj [("name", .str ""), ("sector", .str "tech")])).1.status = 400
    ∧ (saveUserHandler defaultFieldMappings envIdle
        (.obj [("name", .str ""), ("sector", .str "tech")])).1.status = 400 :=
  ⟨(c10_falsy_required_field defaultFieldMappings envIdle
      (.obj [("name", .str ""), ("sector", .str "tech")]) (.str "")
      (Or.inl rfl) (Or.inl (by rfl))).2.1,
   (c10_falsy_required_field defaultFieldMappings envIdle
      (.obj [("name", .str ""), ("sector", .str "tech")]) (.str "")
      (Or.inl rfl) (Or.inl (by rfl))).2.2.2.1⟩

/-! ## Lemmas about the catch body and traces -/

/-- The catch response's status is the classification of the thrown error. -/
theorem recommendCatch_status (env : RecommendEnv) (e : JsError) (cid : JSValue) :
    (recommendCatch env e cid).status = classifyStatus e := rfl

/-- The catch body always carries the current candidateId. -/
theorem recommendCatch_candidateId (env : RecommendEnv) (e : JsError) (cid : JSValue) :
    getField (recommendCatch env e cid).body "candidateId" = cid := by
  unfold recommendCatch
  cases h : env.isDev <;> simp only [h] <;> rfl

/-- The catch body reports failure. -/
theorem recommendCatch_success (env : RecommendEnv) (e : JsError) (cid : JSValue) :
    getField (recommendCatch env e cid).body "success" = .bool false := by
  unfold recommendCatch
  cases h : env.isDev <;> simp only [h] <;> rfl

/-- The catch body carries the stable generic error message. -/
theorem recommendCatch_errorField (env : RecommendEnv) (e : JsError) (cid : JSValue) :
    getField (recommendCatch env e cid).body "error" = .str "AI recommendation failed" := by
  unfold recommendCatch
  cases h : env.isDev <;> simp only [h] <;> rfl

/-- Filtering a mapped list whose every image satisfies the predicate keeps
every element. -/
theorem length_filter_map_true {α β : Type} (p : β → Bool) (f : α → β) (l : List α)
    (h : ∀ i, p (f i) = true) : ((l.map f).filter p).length = l.length := by
  induction l with
  | nil => rfl
  | cons a t ih => simp [List.filter_cons, h, ih]

/-- Filtering a mapped list whose every image fails the predicate keeps
nothing. -/
theorem length_filter_map_false {α β : Type} (p : β → Bool) (f : α → β) (l : List α)
    (h : ∀ i, p (f i) = false) : ((l.map f).filter p).length = 0 := by
  induction l with
  | nil => rfl
  | cons a t ih => simp [List.filter_cons, h, ih]

/-- The save-call prefix of the trace: one event per attempt performed. -/
def saveT (c : JSValue) (n : Nat) : List CallEvent :=
  (List.range n).map fun i => CallEvent.saveCall c (i + 1)

/-- The scoring-call segment of the trace: one event per attempt performed. -/
def scoreT (p : JSValue) (m : Nat) : List CallEvent :=
  (List.range m).map fun i => CallEvent.scoreCall p (i + 1)

theorem countSave_saveT (c : JSValue) (n : Nat) : countSave (saveT c n) = n := by
  unfold countSave saveT
  rw [length_filter_map_true _ _ _ (fun i => rfl), List.length_range]

theorem countFetch_saveT (c : JSValue) (n : Nat) : countFetch (saveT c n) = 0 := by
  unfold countFetch saveT
  rw [length_filter_map_false _ _ _ (fun i => rfl)]

theorem countScore_saveT (c : JSValue) (n : Nat) : countScore (saveT c n) = 0 := by
  unfold countScore saveT
  rw [length_filter_map_false _ _ _ (fun i => rfl)]

theorem countUpdate_saveT (c : JSValue) (n : Nat) : countUpdate (saveT c n) = 0 := by
  unfold countUpdate saveT
  rw [length_filter_map_false _ _ _ (fun i => rfl)]

theorem countSave_scoreT (p : JSValue) (m : Nat) : countSave (scoreT p m) = 0 := by
  unfold countSave scoreT
  rw [length_filter_map_false _ _ _ (fun i => rfl)]

theorem countFetch_scoreT (p : JSValue) (m : Nat) : countFetch (scoreT p m) = 0 := by
  unfold countFetch scoreT
  rw [length_filter_map_false _ _ _ (fun i => rfl)]

theorem countScore_scoreT (p : JSValue) (m : Nat) : countScore (scoreT p m) = m := by
  unfold countScore scoreT
  rw [length_filter_map_true _ _ _ (fun i => rfl), List.length_range]

theorem countUpdate_scoreT (p : JSValue) (m : Nat) : countUpdate (scoreT p m) = 0 := by
  unfold countUpdate scoreT
  rw [length_filter_map_false _ _ _ (fun i => rfl)]

theorem countSave_append (a b : List CallEvent) :
    countSave (a ++ b) = countSave a + countSave b := by
  unfold countSave; rw [List.filter_append, List.length_append]

theorem countFetch_append (a b : List CallEvent) :
    countFetch (a ++ b) = countFetch a + countFetch b := by
  unfold countFetch; rw [List.filter_append, List.length_append]

theorem countScore_append (a b : List CallEvent) :
    countScore (a ++ b) = countScore a + countScore b := by
  unfold countScore; rw [List.filter_append, List.length_append]

theorem countUpdate_append (a b : List CallEvent) :
    countUpdate (a ++ b) = countUpdate a + countUpdate b := by
  unfold countUpdate; rw [List.filter_append, List.length_append]

/-- The retry budget bounds the save attempts actually performed. -/
theorem saveRun_attempts_le (fm : FieldMappings) (env : RecommendEnv) (c : JSValue) :
    (saveRun fm env c).2.1 ≤ 2 :=
  retryRunGo_attempts_le (saveAttempt fm env c) 1000 2 1

/-- The retry budget bounds the scoring attempts actually performed. -/
theorem aiRun_attempts_le (env : RecommendEnv) (p : JSValue) :
    (aiRun env p).2.1 ≤ 2 :=
  retryRunGo_attempts_le (aiAttempt env p) 2000 2 1

/-- Every call trace of the recommend handler is one of five shapes: empty;
save attempts only; save attempts then one fetch; save attempts, one fetch,
then scoring attempts; or all of those followed by one update call — with
at most two save attempts and at most two scoring attempts, all on the
spread-copied request body. -/
theorem trace_shape (fm : FieldMappings) (env : RecommendEnv) (body : JSValue) :
    ∃ n m : Nat, n ≤ 2 ∧ m ≤ 2 ∧
      ((recommendHandler fm env body).2 = []
      ∨ (recommendHandler fm env body).2 = saveT (spreadCopy body) n
      ∨ (recommendHandler fm env body).2
          = saveT (spreadCopy body) n
            ++ [CallEvent.fetchCall (careerFilterOf fm (spreadCopy body))]
      ∨ (∃ careers, (recommendHandler fm env body).2
          = saveT (spreadCopy body) n
            ++ [CallEvent.fetchCall (careerFilterOf fm (spreadCopy body))]
            ++ scoreT (aiPayloadOf fm (spreadCopy body) careers) m)
      ∨ (∃ careers cid recs, (recommendHandler fm env body).2
          = saveT (spreadCopy body) n
            ++ [CallEvent.fetchCall (careerFilterOf fm (spreadCopy body))]
            ++ scoreT (aiPayloadOf fm (spreadCopy body) careers) m
            ++ [CallEvent.updateCall cid recs])) := by
  simp only [recommendHandler]
  split
  · -- validation passed
    simp only [recommendPipeline]
    split
    · exact ⟨0, 0, Nat.zero_le _, Nat.zero_le _, Or.inl rfl⟩
    · split
      · exact ⟨0, 0, Nat.zero_le _, Nat.zero_le _, Or.inl rfl⟩
      · split
        · -- save failed
          exact ⟨(saveRun fm env (spreadCopy body)).2.1, 0, saveRun_attempts_le fm env _,
            Nat.zero_le _, Or.inr (Or.inl rfl)⟩
        · -- save succeeded
          rename_i cid hsaveok
          split
          · -- fetch failed
            exact ⟨(saveRun fm env (spreadCopy body)).2.1, 0, saveRun_attempts_le fm env _,
              Nat.zero_le _, Or.inr (Or.inr (Or.inl rfl))⟩
          · -- fetch returned an array
            rename_i careerList hfetch
            split
            · -- scoring failed
              refine ⟨(saveRun fm env (spreadCopy body)).2.1,
                (aiRun env (aiPayloadOf fm (spreadCopy body) (.arr careerList))).2.1,
                saveRun_attempts_le fm env _, aiRun_attempts_le env _,
                Or.inr (Or.inr (Or.inr (Or.inl ⟨.arr careerList, rfl⟩)))⟩
            · -- scoring succeeded
              rename_i recommendations hai
              split
              · refine ⟨(saveRun fm env (spreadCopy body)).2.1,
                  (aiRun env (aiPayloadOf fm (spreadCopy body) (.arr careerList))).2.1,
                  saveRun_attempts_le fm env _, aiRun_attempts_le env _,
                  Or.inr (Or.inr (Or.inr (Or.inr ⟨.arr careerList, cid, recommendations, rfl⟩)))⟩
              · refine ⟨(saveRun fm env (spreadCopy body)).2.1,
                  (aiRun env (aiPayloadOf fm (spreadCopy body) (.arr careerList))).2.1,
                  saveRun_attempts_le fm env _, aiRun_attempts_le env _,
                  Or.inr (Or.inr (Or.inr (Or.inr ⟨.arr careerList, cid, recommendations, rfl⟩)))⟩
          · -- fetch returned a non-array
            exact ⟨(saveRun fm env (spreadCopy body)).2.1, 0, saveRun_attempts_le fm env _,
              Nat.zero_le _, Or.inr (Or.inr (Or.inl rfl))⟩
  · -- validation failed
    exact ⟨0, 0, Nat.zero_le _, Nat.zero_le _, Or.inl rfl⟩

/-- Claim C3: on the spec's end-to-end example — candidate Ada/tech, save
id c1, one Engineer career, one scored recommendation — the pipeline
responds 200 with success true, candidateId c1, the recommendations
verbatim, and metadata counting exactly one career analyzed and one
recommendation generated. -/
theorem c3_end_to_end_success :
    (recommendHandler defaultFieldMappings envC3 adaBody).1.status = 200
    ∧ getField (recommendHandler defaultFieldMappings envC3 adaBody).1.body "success"
        = .bool true
    ∧ getField (recommendHandler defaultFieldMappings envC3 adaBody).1.body "candidateId"
        = .str "c1"
    ∧ getField (recommendHandler defaultFieldMappings envC3 adaBody).1.body "recommendations"
        = .arr [.obj [("title", .str "Engineer"), ("score", .num 0.9)]]
    ∧ getField (getField (recommendHandler defaultFieldMappings envC3 adaBody).1.body
          "metadata") "careersAnalyzed" = .num 1
    ∧ getField (getField (recommendHandler defaultFieldMappings envC3 adaBody).1.body
          "metadata") "recommendationsGenerated" = .num 1 :=
  ⟨rfl, rfl, rfl, rfl, rfl, rfl⟩

/-- After passing validation, the recommend handler is the pipeline run on
the spread-copied body. -/
theorem recommendHandler_eq_pipeline (fm : FieldMappings) (env : RecommendEnv)
    (body : JSValue) (hval : (validateCandidate fm (spreadCopy body)).isEmpty = true) :
    recommendHandler fm env body = recommendPipeline fm env (spreadCopy body) := by
  simp only [recommendHandler, hval, if_true]

/-- Claim C4 (amended): every failure that reaches the pipeline's catch
handler carries the last known candidateId — null while save has not yet
succeeded, and the id returned by save afterwards, whatever later stage
fails; in particular a fetchCareers timeout after a successful save reports
that id with status 408.  (The pre-pipeline validation failure, by
contrast, carries no candidateId field at all — see the counterexample.) -/
theorem c4_failure_reports_candidateId (fm : FieldMappings) (env : RecommendEnv)
    (body : JSValue) (cid : JSValue) (e : JsError)
    (hval : (validateCandidate fm (spreadCopy body)).isEmpty = true)
    (hload : env.dbLoads = true)
    (hmiss : (missingMethods fm env.db).isEmpty = true) :
    ((saveRun fm env (spreadCopy body)).1 = .ok cid →
      env.dbTimeout < (env.db.fetchCareers (careerFilterOf fm (spreadCopy body))).settleTime →
      (recommendHandler fm env body).1.status = 408
      ∧ getField (recommendHandler fm env body).1.body "candidateId" = cid
      ∧ getField (recommendHandler fm env body).1.body "success" = .bool false)
    ∧ ((saveRun fm env (spreadCopy body)).1 = .error e →
      getField (recommendHandler fm env body).1.body "candidateId" = .null
      ∧ getField (recommendHandler fm env body).1.body "success" = .bool false)
    ∧ ((saveRun fm env (spreadCopy body)).1 = .ok cid →
      getField (recommendHandler fm env body).1.body "candidateId" = cid) := by
  rw [recommendHandler_eq_pipeline fm env body hval]
  refine ⟨?_, ?_, ?_⟩
  · intro hsave hTO
    have hfetch : fetchResult fm env (spreadCopy body)
        = .error (timeoutError "Fetch careers" env.dbTimeout) := by
      unfold fetchResult withTimeout
      rw [if_neg (by omega)]
    simp only [recommendPipeline, hload, hmiss, hsave, hfetch, Bool.true_eq_false,
      if_false, if_true]
    exact ⟨classifyStatus_timeoutError _ _, recommendCatch_candidateId env _ cid,
      recommendCatch_success env _ cid⟩
  · intro hsave
    simp only [recommendPipeline, hload, hmiss, hsave, Bool.true_eq_false, if_false,
      if_true]
    exact ⟨recommendCatch_candidateId env e .null, recommendCatch_success env e .null⟩
  · intro hsave
    simp only [recommendPipeline, hload, hmiss, hsave, Bool.true_eq_false, if_false,
      if_true]
    split
    · exact recommendCatch_candidateId env _ cid
    · split
      · exact recommendCatch_candidateId env _ cid
      · split
        · exact recommendCatch_candidateId env _ cid
        · rfl
    · exact recommendCatch_candidateId env _ cid

/-- A storage collaborator whose save rejects on every attempt. -/
def envSaveFail : RecommendEnv where
  db :=
    { saveCandidate := fun _ _ => ⟨0, .error { message := "db down" }⟩
      fetchCareers := fun _ => ⟨0, .ok (.arr [])⟩
      updateRecommendations := fun _ _ => ⟨0, .ok .undefined⟩ }
  aiPost := fun _ _ => .ok (.arr [])

/-- A storage collaborator whose save succeeds with id c1 but whose
fetchCareers only settles long after the configured database timeout. -/
def envFetchTimeout : RecommendEnv where
  db :=
    { saveCandidate := fun _ _ => ⟨0, .ok (.str "c1")⟩
      fetchCareers := fun _ => ⟨999999, .ok (.arr [])⟩
      updateRecommendations := fun _ _ => ⟨0, .ok .undefined⟩ }
  aiPost := fun _ _ => .ok (.arr [])

/-- Counterexample to claim C4 as stated: for a request that fails
validation — where save has certainly not yet succeeded — the failure
response carries no candidateId field at all, rather than a null one. -/
theorem c4_counterexample_validation_no_candidateId :
    (recommendHandler defaultFieldMappings envIdle (.obj [("sector", .str "tech")])).1.status
      = 400
    ∧ hasField (recommendHandler defaultFieldMappings envIdle
        (.obj [("sector", .str "tech")])).1.body "candidateId" = false :=
  ⟨rfl, rfl⟩

/-- Witness for C4: with save returning c1 and fetchCareers timing out the
failure report carries candidateId c1 and status 408; with save failing on
every attempt the catch report carries a null candidateId. -/
theorem c4_failure_reports_candidateId_witness :
    ((recommendHandler defaultFieldMappings envFetchTimeout adaBody).1.status = 408
      ∧ getField (recommendHandler defaultFieldMappings envFetchTimeout adaBody).1.body
          "candidateId" = .str "c1"
      ∧ getField (recommendHandler defaultFieldMappings envFetchTimeout adaBody).1.body
          "success" = .bool false)
    ∧ getField (recommendHandler defaultFieldMappings envSaveFail adaBody).1.body
        "candidateId" = .null :=
  ⟨(c4_failure_reports_candidateId defaultFieldMappings envFetchTimeout adaBody
      (.str "c1") { message := "db down" } rfl rfl rfl).1 (by rfl) (by decide),
   ((c4_failure_reports_candidateId defaultFieldMappings envSaveFail adaBody
      .undefined { message := "db down" } rfl rfl rfl).2.1 (by rfl)).1⟩

/-- Claim C6: the catch handler's classification — an error whose message
mentions timeout (and is not a refused connection) yields 408; an error
that is neither a timeout, nor a refused connection, nor tagged as a
validation failure yields 500; and when the scoring service refuses the
connection on every retry after save and fetch succeeded, the response is
503 with body success false, the stable message AI recommendation failed,
and the saved candidateId.  Timeout errors carry their own distinctive
wrapper message, so they remain distinguishable from the wrapped
operation's own errors. -/
theorem c6_failure_classification (fm : FieldMappings) (env : RecommendEnv)
    (body cid : JSValue) (l : List JSValue) (eAI err : JsError)
    (hval : (validateCandidate fm (spreadCopy body)).isEmpty = true)
    (hload : env.dbLoads = true)
    (hmiss : (missingMethods fm env.db).isEmpty = true) :
    (strIncludes err.message "timeout" = true → err.code ≠ some "ECONNREFUSED" →
      classifyStatus err = 408)
    ∧ (strIncludes err.message "timeout" = false →
       strIncludes err.message "Validation failed" = false →
       err.code ≠ some "ECONNREFUSED" → classifyStatus err = 500)
    ∧ ((saveRun fm env (spreadCopy body)).1 = .ok cid →
       fetchResult fm env (spreadCopy body) = .ok (.arr l) →
       (∀ a, env.aiPost (aiPayloadOf fm (spreadCopy body) (.arr l)) a = .error eAI) →
       eAI.code = some "ECONNREFUSED" →
       (recommendHandler fm env body).1.status = 503
       ∧ getField (recommendHandler fm env body).1.body "success" = .bool false
       ∧ getField (recommendHandler fm env body).1.body "error"
           = .str "AI recommendation failed"
       ∧ getField (recommendHandler fm env body).1.body "candidateId" = cid) := by
  refine ⟨classifyStatus_timeout_message err, fun ht hv => classifyStatus_other err hv ht, ?_⟩
  intro hsave hfetch hai hcode
  have hAtt : ∀ a, aiAttempt env (aiPayloadOf fm (spreadCopy body) (.arr l)) a
      = .error eAI := fun a => by unfold aiAttempt; rw [hai a]
  have hAI : (aiRun env (aiPayloadOf fm (spreadCopy body) (.arr l))).1 = .error eAI := by
    unfold aiRun retryRun
    rw [retryRunGo_all_fail _ 2000 2 1 eAI (by omega)
      (fun j hj => ⟨eAI, hAtt (1 + j)⟩) (hAtt 2)]
  rw [recommendHandler_eq_pipeline fm env body hval]
  simp only [recommendPipeline, hload, hmiss, hsave, hfetch, hAI, Bool.true_eq_false,
    if_false, if_true]
  exact ⟨classifyStatus_connRefused eAI hcode, recommendCatch_success env eAI cid,
    recommendCatch_errorField env eAI cid, recommendCatch_candidateId env eAI cid⟩

/-- A scoring collaborator that is unreachable: every POST rejects with an
ECONNREFUSED axios error, while storage succeeds. -/
def envConnRefused : RecommendEnv where
  db :=
    { saveCandidate := fun _ _ => ⟨0, .ok (.str "c1")⟩
      fetchCareers := fun _ => ⟨0, .ok (.arr [.obj [("title", .str "Engineer")]])⟩
      updateRecommendations := fun _ _ => ⟨0, .ok .undefined⟩ }
  aiPost := fun _ _ =>
    .error { message := "connect ECONNREFUSED 127.0.0.1:5001", code := some "ECONNREFUSED" }

/-- Witness for C6: the unreachable scoring service yields 503 with the
stable message and candidateId c1; an axios client timeout classifies as
408; an unrecognized error classifies as 500. -/
theorem c6_failure_classification_witness :
    ((recommendHandler defaultFieldMappings envConnRefused adaBody).1.status = 503
      ∧ getField (recommendHandler defaultFieldMappings envConnRefused adaBody).1.body
          "success" = .bool false
      ∧ getField (recommendHandler defaultFieldMappings envConnRefused adaBody).1.body
          "error" = .str "AI recommendation failed"
      ∧ getField (recommendHandler defaultFieldMappings envConnRefused adaBody).1.body
          "candidateId" = .str "c1")
    ∧ classifyStatus { message := "timeout of 20000ms exceeded", code := some "ECONNABORTED" }
        = 408
    ∧ classifyStatus { message := "Empty response from AI service" } = 500 :=
  ⟨(c6_failure_classification defaultFieldMappings envConnRefused adaBody (.str "c1")
      [.obj [("title", .str "Engineer")]]
      { message := "connect ECONNREFUSED 127.0.0.1:5001", code := some "ECONNREFUSED" }
      { message := "x" } rfl rfl rfl).2.2 (by rfl) (by rfl) (fun a => rfl) rfl,
   (c6_failure_classification defaultFieldMappings envConnRefused adaBody (.str "c1") []
      { message := "y" }
      { message := "timeout of 20000ms exceeded", code := some "ECONNABORTED" }
      rfl rfl rfl).1 (by rfl) (by decide),
   (c6_failure_classification defaultFieldMappings envConnRefused adaBody (.str "c1") []
      { message := "z" }
      { message := "Empty response from AI service" }
      rfl rfl rfl).2.1 (by rfl) (by rfl) (by decide)⟩

/-- Claim C7: when fetchCareers fulfils with a non-array value after a
successful save, the pipeline fails with the contract-violation error
(classified 500) instead of silently coercing, and neither the scoring
service nor updateRecommendations is ever called. -/
theorem c7_non_array_careers (fm : FieldMappings) (env : RecommendEnv)
    (body cid c : JSValue)
    (hval : (validateCandidate fm (spreadCopy body)).isEmpty = true)
    (hload : env.dbLoads = true)
    (hmiss : (missingMethods fm env.db).isEmpty = true)
    (hsave : (saveRun fm env (spreadCopy body)).1 = .ok cid)
    (hfetch : fetchResult fm env (spreadCopy body) = .ok c)
    (hc : isArray c = false) :
    (recommendHandler fm env body).1.status = 500
    ∧ getField (recommendHandler fm env body).1.body "success" = .bool false
    ∧ countScore (recommendHandler fm env body).2 = 0
    ∧ countUpdate (recommendHandler fm env body).2 = 0 := by
  rw [recommendHandler_eq_pipeline fm env body hval]
  simp only [recommendPipeline, hload, hmiss, hsave, hfetch, Bool.true_eq_false, if_false,
    if_true]
  cases c with
  | arr l => exact absurd hc (by simp [isArray])
  | undefined =>
    refine ⟨rfl, recommendCatch_success env _ cid, ?_, ?_⟩
    · show countScore (saveT (spreadCopy body) (saveRun fm env (spreadCopy body)).2.1
        ++ [CallEvent.fetchCall (careerFilterOf fm (spreadCopy body))]) = 0
      rw [countScore_append, countScore_saveT]
      rfl
    · show countUpdate (saveT (spreadCopy body) (saveRun fm env (spreadCopy body)).2.1
        ++ [CallEvent.fetchCall (careerFilterOf fm (spreadCopy body))]) = 0
      rw [countUpdate_append, countUpdate_saveT]
      rfl
  | null =>
    refine ⟨rfl, recommendCatch_success env _ cid, ?_, ?_⟩
    · show countScore (saveT (spreadCopy body) (saveRun fm env (spreadCopy body)).2.1
        ++ [CallEvent.fetchCall (careerFilterOf fm (spreadCopy body))]) = 0
      rw [countScore_append, countScore_saveT]
      rfl
    · show countUpdate (saveT (spreadCopy body) (saveRun fm env (spreadCopy body)).2.1
        ++ [CallEvent.fetchCall (careerFilterOf fm (spreadCopy body))]) = 0
      rw [countUpdate_append, countUpdate_saveT]
      rfl
  | bool b =>
    refine ⟨rfl, recommendCatch_success env _ cid, ?_, ?_⟩
    · show countScore (saveT (spreadCopy body) (saveRun fm env (spreadCopy body)).2.1
        ++ [CallEvent.fetchCall (careerFilterOf fm (spreadCopy body))]) = 0
      rw [countScore_append, countScore_saveT]
      rfl
    · show countUpdate (saveT (spreadCopy body) (saveRun fm env (spreadCopy body)).2.1
        ++ [CallEvent.fetchCall (careerFilterOf fm (spreadCopy body))]) = 0
      rw [countUpdate_append, countUpdate_saveT]
      rfl
  | num n =>
    refine ⟨rfl, recommendCatch_success env _ cid, ?_, ?_⟩
    · show countScore (saveT (spreadCopy body) (saveRun fm env (spreadCopy body)).2.1
        ++ [CallEvent.fetchCall (careerFilterOf fm (spreadCopy body))]) = 0
      rw [countScore_append, countScore_saveT]
      rfl
    · show countUpdate (saveT (spreadCopy body) (saveRun fm env (spreadCopy body)).2.1
        ++ [CallEvent.fetchCall (careerFilterOf fm (spreadCopy body))]) = 0
      rw [countUpdate_append, countUpdate_saveT]
      rfl
  | str s =>
    refine ⟨rfl, recommendCatch_success env _ cid, ?_, ?_⟩
    · show countScore (saveT (spreadCopy body) (saveRun fm env (spreadCopy body)).2.1
        ++ [CallEvent.fetchCall (careerFilterOf fm (spreadCopy body))]) = 0
      rw [countScore_append, countScore_saveT]
      rfl
    · show countUpdate (saveT (spreadCopy body) (saveRun fm env (spreadCopy body)).2.1
        ++ [CallEvent.fetchCall (careerFilterOf fm (spreadCopy body))]) = 0
      rw [countUpdate_append, countUpdate_saveT]
      rfl
  | obj fs =>
    refine ⟨rfl, recommendCatch_success env _ cid, ?_, ?_⟩
    · show countScore (saveT (spreadCopy body) (saveRun fm env (spreadCopy body)).2.1
        ++ [CallEvent.fetchCall (careerFilterOf fm (spreadCopy body))]) = 0
      rw [countScore_append, countScore_saveT]
      rfl
    · show countUpdate (saveT (spreadCopy body) (saveRun fm env (spreadCopy body)).2.1
        ++ [CallEvent.fetchCall (careerFilterOf fm (spreadCopy body))]) = 0
      rw [countUpdate_append, countUpdate_saveT]
      rfl

/-- A storage collaborator whose fetchCareers fulfils with a string rather
than an array. -/
def envBadCareers : RecommendEnv where
  db :=
    { saveCandidate := fun _ _ => ⟨0, .ok (.str "c1")⟩
      fetchCareers := fun _ => ⟨0, .ok (.str "not a list")⟩
      updateRecommendations := fun _ _ => ⟨0, .ok .undefined⟩ }
  aiPost := fun _ _ => .ok (.arr [])

/-- Witness for C7: a string careers response yields 500 and no scoring or
persisting call. -/
theorem c7_non_array_careers_witness :
    (recommendHandler defaultFieldMappings envBadCareers adaBody).1.status = 500
    ∧ countScore (recommendHandler defaultFieldMappings envBadCareers adaBody).2 = 0 :=
  ⟨(c7_non_array_careers defaultFieldMappings envBadCareers adaBody (.str "c1")
      (.str "not a list") rfl rfl rfl (by rfl) (by rfl) rfl).1,
   (c7_non_array_careers defaultFieldMappings envBadCareers adaBody (.str "c1")
      (.str "not a list") rfl rfl rfl (by rfl) (by rfl) rfl).2.2.1⟩

theorem countSave_nil : countSave [] = 0 := rfl
theorem countFetch_nil : countFetch [] = 0 := rfl
theorem countScore_nil : countScore [] = 0 := rfl
theorem countUpdate_nil : countUpdate [] = 0 := rfl
theorem countSave_fetchCall (f : JSValue) : countSave [CallEvent.fetchCall f] = 0 := rfl
theorem countFetch_fetchCall (f : JSValue) : countFetch [CallEvent.fetchCall f] = 1 := rfl
theorem countScore_fetchCall (f : JSValue) : countScore [CallEvent.fetchCall f] = 0 := rfl
theorem countUpdate_fetchCall (f : JSValue) : countUpdate [CallEvent.fetchCall f] = 0 := rfl
theorem countSave_updateCall (a b : JSValue) : countSave [CallEvent.updateCall a b] = 0 := rfl
theorem countFetch_updateCall (a b : JSValue) : countFetch [CallEvent.updateCall a b] = 0 := rfl
theorem countScore_updateCall (a b : JSValue) : countScore [CallEvent.updateCall a b] = 0 := rfl
theorem countUpdate_updateCall (a b : JSValue) : countUpdate [CallEvent.updateCall a b] = 1 := rfl

/-- Claim C1 (amended): Saving is wrapped in the Retry wrapper (2 attempts,
1000ms base delay) around a Timeout-wrapped call, and Scoring is wrapped in
the Retry wrapper (2 attempts, 2000ms base delay) around the HTTP client
call whose deadline is the client's own timeout option — so Scoring is not
the only retried stage.  FetchingCareers and Persisting run under the
Timeout wrapper alone, without retry; a scoring failure is always either
the HTTP client's own error or the empty-response error, never a
withTimeout wrapper error; and no run of the handler performs more than 2
save calls, 1 fetch call, 2 scoring calls, or 1 update call. -/
theorem c1_stage_wrapping (fm : FieldMappings) (env : RecommendEnv)
    (candidate payload cid recs body : JSValue) (e : JsError) (v : JSValue) :
    (saveAttempt fm env candidate 1 = .error e → saveAttempt fm env candidate 2 = .ok v →
      saveRun fm env candidate = (.ok v, 2, [1000]))
    ∧ (∀ a, env.dbTimeout < (env.db.saveCandidate candidate a).settleTime →
        saveAttempt fm env candidate a = .error (timeoutError "Save candidate" env.dbTimeout))
    ∧ (aiAttempt env payload 1 = .error e → aiAttempt env payload 2 = .ok v →
        aiRun env payload = (.ok v, 2, [2000]))
    ∧ (∀ a e2, aiAttempt env payload a = .error e2 →
        env.aiPost payload a = .error e2 ∨ e2 = emptyAiResponseError)
    ∧ (env.dbTimeout < (env.db.fetchCareers (careerFilterOf fm candidate)).settleTime →
        fetchResult fm env candidate = .error (timeoutError "Fetch careers" env.dbTimeout))
    ∧ (env.dbTimeout < (env.db.updateRecommendations cid recs).settleTime →
        updateResult env cid recs
          = .error (timeoutError "Update recommendations" env.dbTimeout))
    ∧ (countSave (recommendHandler fm env body).2 ≤ 2
       ∧ countFetch (recommendHandler fm env body).2 ≤ 1
       ∧ countScore (recommendHandler fm env body).2 ≤ 2
       ∧ countUpdate (recommendHandler fm env body).2 ≤ 1) := by
  refine ⟨?_, ?_, ?_, ?_, ?_, ?_, ?_⟩
  · intro h1 h2
    unfold saveRun retryRun
    rw [retryRunGo_ok (saveAttempt fm env candidate) 1000 1 2 1 v (by omega)
      (fun j hj => by interval_cases j; exact ⟨e, h1⟩) h2]
    rfl
  · intro a h
    unfold saveAttempt withTimeout
    rw [if_neg (by omega)]
  · intro h1 h2
    unfold aiRun retryRun
    rw [retryRunGo_ok (aiAttempt env payload) 2000 1 2 1 v (by omega)
      (fun j hj => by interval_cases j; exact ⟨e, h1⟩) h2]
    rfl
  · intro a e2 h
    unfold aiAttempt at h
    cases hp : env.aiPost payload a with
    | error e0 =>
      rw [hp] at h
      exact Or.inl h
    | ok data =>
      rw [hp] at h
      have h2 : (if truthy data = true then (Except.ok data : Except JsError JSValue)
          else .error emptyAiResponseError) = .error e2 := h
      by_cases ht : truthy data = true
      · rw [if_pos ht] at h2
        exact absurd h2 (by simp)
      · rw [if_neg ht] at h2
        exact Or.inr (by cases h2; rfl)
  · intro h
    unfold fetchResult withTimeout
    rw [if_neg (by omega)]
  · intro h
    unfold updateResult withTimeout
    rw [if_neg (by omega)]
  · obtain ⟨n, m, hn, hm, hcase⟩ := trace_shape fm env body
    rcases hcase with h | h | h | ⟨cs, h⟩ | ⟨cs, cid2, recs2, h⟩ <;> rw [h] <;>
      refine ⟨?_, ?_, ?_, ?_⟩ <;>
      simp only [countSave_append, countFetch_append, countScore_append, countUpdate_append,
        countSave_saveT, countFetch_saveT, countScore_saveT, countUpdate_saveT,
        countSave_scoreT, countFetch_scoreT, countScore_scoreT, countUpdate_scoreT,
        countSave_fetchCall, countFetch_fetchCall, countScore_fetchCall, countUpdate_fetchCall,
        countSave_updateCall, countFetch_updateCall, countScore_updateCall,
        countUpdate_updateCall, countSave_nil, countFetch_nil, countScore_nil,
        countUpdate_nil] <;>
      omega

/-- A storage collaborator whose save rejects on the first attempt and
fulfils with id c1 on the second, everything else succeeding. -/
def envC1 : RecommendEnv where
  db :=
    { saveCandidate := fun _ attempt =>
        if attempt = 1 then ⟨0, .error { message := "transient save failure" }⟩
        else ⟨0, .ok (.str "c1")⟩
      fetchCareers := fun _ => ⟨0, .ok (.arr [])⟩
      updateRecommendations := fun _ _ => ⟨0, .ok .undefined⟩ }
  aiPost := fun _ _ => .ok (.arr [.obj [("title", .str "Engineer")]])

/-- Counterexample to claim C1 as stated: the Saving stage is also wrapped
in the Retry wrapper — after the first save attempt rejects, the handler
performs a second save call and the request still succeeds with the id of
the retried save, which could not happen if Saving ran under Timeout
only. -/
theorem c1_counterexample_save_retried :
    countSave (recommendHandler defaultFieldMappings envC1 adaBody).2 = 2
    ∧ (recommendHandler defaultFieldMappings envC1 adaBody).1.status = 200
    ∧ getField (recommendHandler defaultFieldMappings envC1 adaBody).1.body "candidateId"
        = .str "c1" :=
  ⟨rfl, rfl, rfl⟩

/-- Witness for C1: the retried save of envC1 resolves c1 on its second
attempt after a 1000ms backoff, and the same run stays within the call
bounds. -/
theorem c1_stage_wrapping_witness :
    saveRun defaultFieldMappings envC1 (spreadCopy adaBody) = (.ok (.str "c1"), 2, [1000])
    ∧ countSave (recommendHandler defaultFieldMappings envC1 adaBody).2 ≤ 2 :=
  ⟨(c1_stage_wrapping defaultFieldMappings envC1 (spreadCopy adaBody) .undefined .undefined
      .undefined adaBody { message := "transient save failure" } (.str "c1")).1
      (by rfl) (by rfl),
   (c1_stage_wrapping defaultFieldMappings envC1 .undefined .undefined .undefined .undefined
      adaBody { message := "x" } .undefined).2.2.2.2.2.2.1⟩

/-- Membership in the save-call prefix determines the event up to its
attempt number. -/
theorem mem_saveT {ev : CallEvent} {c : JSValue} {n : Nat} (h : ev ∈ saveT c n) :
    ∃ a, ev = CallEvent.saveCall c a := by
  unfold saveT at h
  obtain ⟨i, _, hi⟩ := List.mem_map.mp h
  exact ⟨i + 1, hi.symm⟩

/-- Membership in the scoring-call segment determines the event up to its
attempt number. -/
theorem mem_scoreT {ev : CallEvent} {p : JSValue} {m : Nat} (h : ev ∈ scoreT p m) :
    ∃ a, ev = CallEvent.scoreCall p a := by
  unfold scoreT at h
  obtain ⟨i, _, hi⟩ := List.mem_map.mp h
  exact ⟨i + 1, hi.symm⟩

/-- Claim C8 (amended): the Candidate value is the spread copy of the
inbound request body and is never changed during the request — every save
call receives exactly that copy, and every scoring call receives an AI
payload whose candidate entry is exactly that copy.  The id returned by
save lives only in the separate candidateId variable; it is never written
into the Candidate, so later stages observe the Candidate without an id
field unless the request itself carried one. -/
theorem c8_candidate_immutable (fm : FieldMappings) (env : RecommendEnv) (body : JSValue) :
    ∀ ev ∈ (recommendHandler fm env body).2,
      (∀ c a, ev = CallEvent.saveCall c a → c = spreadCopy body)
      ∧ (∀ p a, ev = CallEvent.scoreCall p a →
          ∃ careers, p = aiPayloadOf fm (spreadCopy body) careers) := by
  intro ev hev
  obtain ⟨n, m, hn, hm, hcase⟩ := trace_shape fm env body
  rcases hcase with h | h | h | ⟨cs, h⟩ | ⟨cs, cid, recs, h⟩ <;> rw [h] at hev
  · simp at hev
  · obtain ⟨a, ha⟩ := mem_saveT hev
    subst ha
    refine ⟨fun c' a' heq => ?_, fun p a' heq => CallEvent.noConfusion heq⟩
    rw [CallEvent.saveCall.injEq] at heq
    exact heq.1.symm
  · rcases List.mem_append.mp hev with h1 | h1
    · obtain ⟨a, ha⟩ := mem_saveT h1
      subst ha
      refine ⟨fun c' a' heq => ?_, fun p a' heq => CallEvent.noConfusion heq⟩
      rw [CallEvent.saveCall.injEq] at heq
      exact heq.1.symm
    · rw [List.mem_singleton.mp h1]
      exact ⟨fun c' a' heq => CallEvent.noConfusion heq,
        fun p a' heq => CallEvent.noConfusion heq⟩
  · rcases List.mem_append.mp hev with h1 | h1
    · rcases List.mem_append.mp h1 with h2 | h2
      · obtain ⟨a, ha⟩ := mem_saveT h2
        subst ha
        refine ⟨fun c' a' heq => ?_, fun p a' heq => CallEvent.noConfusion heq⟩
        rw [CallEvent.saveCall.injEq] at heq
        exact heq.1.symm
      · rw [List.mem_singleton.mp h2]
        exact ⟨fun c' a' heq => CallEvent.noConfusion heq,
          fun p a' heq => CallEvent.noConfusion heq⟩
    · obtain ⟨a, ha⟩ := mem_scoreT h1
      subst ha
      refine ⟨fun c' a' heq => CallEvent.noConfusion heq, fun p a' heq => ?_⟩
      rw [CallEvent.scoreCall.injEq] at heq
      exact ⟨cs, heq.1.symm⟩
  · rcases List.mem_append.mp hev with h1 | h1
    · rcases List.mem_append.mp h1 with h2 | h2
      · rcases List.mem_append.mp h2 with h3 | h3
        · obtain ⟨a, ha⟩ := mem_saveT h3
          subst ha
          refine ⟨fun c' a' heq => ?_, fun p a' heq => CallEvent.noConfusion heq⟩
          rw [CallEvent.saveCall.injEq] at heq
          exact heq.1.symm
        · rw [List.mem_singleton.mp h3]
          exact ⟨fun c' a' heq => CallEvent.noConfusion heq,
            fun p a' heq => CallEvent.noConfusion heq⟩
      · obtain ⟨a, ha⟩ := mem_scoreT h2
        subst ha
        refine ⟨fun c' a' heq => CallEvent.noConfusion heq, fun p a' heq => ?_⟩
        rw [CallEvent.scoreCall.injEq] at heq
        exact ⟨cs, heq.1.symm⟩
    · rw [List.mem_singleton.mp h1]
      exact ⟨fun c' a' heq => CallEvent.noConfusion heq,
        fun p a' heq => CallEvent.noConfusion heq⟩

/-- Counterexample to claim C8 as stated: on the successful end-to-end run
the trace shows that the candidate handed to the scoring stage is exactly
the copied request body with no id field, even though save assigned id c1 —
the Candidate is never enriched with the id, which lives only in the
separate candidateId variable. -/
theorem c8_counterexample_no_id_enrichment :
    (recommendHandler defaultFieldMappings envC3 adaBody).2
      = [CallEvent.saveCall (.obj [("name", .str "Ada"), ("sector", .str "tech")]) 1,
         CallEvent.fetchCall (.obj [("sector", .str "tech")]),
         CallEvent.scoreCall
           (.obj [("candidate", .obj [("name", .str "Ada"), ("sector", .str "tech")]),
                  ("careers", .arr [.obj [("title", .str "Engineer")]])]) 1,
         CallEvent.updateCall (.str "c1")
           (.arr [.obj [("title", .str "Engineer"), ("score", .num 0.9)]])]
    ∧ hasField (.obj [("name", .str "Ada"), ("sector", .str "tech")]) "id" = false
    ∧ getField (recommendHandler defaultFieldMappings envC3 adaBody).1.body "candidateId"
        = .str "c1" :=
  ⟨rfl, rfl, rfl⟩

/-- Witness for C8: applied to the first save event of the end-to-end run,
the immutability theorem identifies the saved candidate with the copied
request body. -/
theorem c8_candidate_immutable_witness :
    (.obj [("name", .str "Ada"), ("sector", .str "tech")] : JSValue) = spreadCopy adaBody :=
  (c8_candidate_immutable defaultFieldMappings envC3 adaBody
      (CallEvent.saveCall (.obj [("name", .str "Ada"), ("sector", .str "tech")]) 1)
      (List.Mem.head _)).1
    (.obj [("name", .str "Ada"), ("sector", .str "tech")]) 1 rfl


end Server
